import Mathlib

/-!
Shallow embedding of the Microplate vision-inference service core
(calibration-driven grid computation, detection-to-well assignment,
result aggregation, worker orchestration), together with theorems
checking the natural-language specification against the code.

Python `float` arithmetic is embedded as exact rational arithmetic (`ℚ`),
Python `int` as `ℤ`, raising code as `Except String`, and JSON objects of
known schema as structures with `Option` fields for optional keys.
-/

namespace Microplate

instance {e a : Type} [DecidableEq e] [DecidableEq a] : DecidableEq (Except e a) := fun x y =>
  match x, y with
  | Except.ok u, Except.ok v =>
      if h : u = v then isTrue (by rw [h]) else isFalse (by intro hh; cases hh; exact h rfl)
  | Except.error u, Except.error v =>
      if h : u = v then isTrue (by rw [h]) else isFalse (by intro hh; cases hh; exact h rfl)
  | Except.ok _, Except.error _ => isFalse (by intro hh; cases hh)
  | Except.error _, Except.ok _ => isFalse (by intro hh; cases hh)

/-! ## Data model: wells and detections (grid_builder_service / predictor_service) -/

/-- One detection attached to a well: a dict with keys `class`, `confidence`, `bbox`. -/
structure Pred where
  cls : String
  confidence : ℚ
  bbox : List Int
deriving DecidableEq, Repr

/-- One well record as produced by `GridBuilder._build_grid`:
`{"label": ..., "top_left": (x1, y1), "bottom_right": (x2, y2), "predictions": []}`. -/
structure Well where
  label : String
  top_left : Int × Int
  bottom_right : Int × Int
  predictions : List Pred
deriving DecidableEq, Repr

/-! ## ResultProcessor (result_processor_service.py) -/

/-- `ResultProcessor.target`: the target detection class, `"Flowing"` by default. -/
def targetClass : String := "Flowing"

/-- Python list item assignment `l[i] = v` (negative indices address from the
end; out-of-range raises `IndexError`). -/
def pySet (l : List Nat) (i : Int) (v : Nat) : Except String (List Nat) :=
  if 0 ≤ i ∧ i < l.length then Except.ok (l.set i.toNat v)
  else if -(l.length : Int) ≤ i ∧ i < 0 then Except.ok (l.set ((l.length : Int) + i).toNat v)
  else Except.error "list assignment index out of range"

/-- Dict lookup in an insertion-ordered association list. -/
def lookupAssoc (counts : List (String × List Nat)) (k : String) : Option (List Nat) :=
  (counts.find? (fun p => p.1 = k)).map (·.2)

/-- Dict update in an insertion-ordered association list: replace in place if
the key exists, append otherwise (Python dict semantics). -/
def updateAssoc : List (String × List Nat) → String → List Nat → List (String × List Nat)
  | [], k, v => [(k, v)]
  | (k0, v0) :: rest, k, v =>
      if k0 = k then (k, v) :: rest else (k0, v0) :: updateAssoc rest k v

/-- Python `int(s)` restricted to decimal digit strings
(raises, i.e. `none`, on anything else, in particular on `""`). -/
def parseNat? (cs : List Char) : Option Nat :=
  if cs ≠ [] ∧ cs.all Char.isDigit then
    some (cs.foldl (fun a c => a * 10 + (c.toNat - 48)) 0)
  else none

/-- The loop of `ResultProcessor.count_by_row`: for each well with predictions,
parse `row = label[0]`, `col = int(label[1:]) - 1`, and store the count of
target-class predictions at `counts[row][col]` (defaultdict of `[0]*12`). -/
def count_by_row_loop : List Well → List (String × List Nat) →
    Except String (List (String × List Nat))
  | [], counts => Except.ok counts
  | w :: ws, counts =>
      if w.predictions.isEmpty then count_by_row_loop ws counts
      else
        match parseNat? (w.label.data.drop 1) with
        | none => Except.error "invalid literal for int()"
        | some n =>
          let row := String.mk (w.label.data.take 1)
          let col : Int := (n : Int) - 1
          let tc := (w.predictions.filter (fun p => p.cls = targetClass)).length
          let cur := (lookupAssoc counts row).getD (List.replicate 12 0)
          match pySet cur col tc with
          | Except.error e => Except.error e
          | Except.ok newRow => count_by_row_loop ws (updateAssoc counts row newRow)

/-- Index of the last strictly positive entry:
`max(i for i, v in enumerate(c) if v > 0)`, `none` when `not any(c)`. -/
def lastNonzeroIdx (c : List Nat) : Option Nat :=
  ((List.range c.length).filter (fun i => 0 < c.getD i 0)).max?

/-- `ResultProcessor.count_by_row`: row counts keyed by row letter, each
trimmed just past its last nonzero entry; all-zero rows omitted. -/
def count_by_row (wells : List Well) : Except String (List (String × List Nat)) :=
  (count_by_row_loop wells []).map (fun counts =>
    counts.filterMap (fun p =>
      match lastNonzeroIdx p.2 with
      | some i => some (p.1, p.2.take (i + 1))
      | none => none))

/-! ## ResultProcessor.to_dataframe (distribution encoding)

`last_positions` is keyed by the row letters A–H of the fixed 8×12 plate, so
it is embedded as a map `Fin 8 → Option Int` (row index to optional last
positive column value). -/

/-- The fixed row index of the 8×12 distribution dataframe. -/
def rowLetters : List Char := ['A', 'B', 'C', 'D', 'E', 'F', 'G', 'H']

/-- Matrix cell of the 0/1 dataframe: `df.at[r, c] = 1` is executed exactly
when `last_positions[r]` equals the column label `c + 1` (the code guard
`1 <= c <= 12` is implied). All other cells keep their initial 0. -/
def markCell (lp : Fin 8 → Option Int) (r : Fin 8) (c : Fin 12) : Nat :=
  if lp r = some ((c : Int) + 1) then 1 else 0

/-- Row sum (the `total` column added by `df.sum(axis=1)`). -/
def rowTotal (lp : Fin 8 → Option Int) (r : Fin 8) : Nat :=
  ∑ c : Fin 12, markCell lp r c

/-- Column sum (the `Total` row added via `df.sum()`). -/
def colTotal (lp : Fin 8 → Option Int) (c : Fin 12) : Nat :=
  ∑ r : Fin 8, markCell lp r c

/-- The `total` entry of the `Total` row: sum of the column sums
(the `Total` row is appended before the `total` column is computed). -/
def grandTotal (lp : Fin 8 → Option Int) : Nat :=
  ∑ c : Fin 12, colTotal lp c

/-- One data row of the dataframe after column reordering
reordering the `total` field to the front, followed by columns 1..12. -/
def dfRow (lp : Fin 8 → Option Int) (r : Fin 8) : List Nat :=
  rowTotal lp r :: (List.finRange 12).map (markCell lp r)

/-- The eight data rows A–H of the distribution dataframe. -/
def distributionRows (lp : Fin 8 → Option Int) : List (Char × List Nat) :=
  (List.finRange 8).map (fun r => (rowLetters.getD r.val 'A', dfRow lp r))

/-- The flattened mapping returned by `ResultProcessor.to_dataframe`:
the `Total` row as a dict (keys `total` and 1..12), then
`total[0] = non_flowing_count` and
the `total` key is increased by `non_flowing_count`. -/
structure Distribution where
  colVals : Fin 12 → Nat
  key0 : Nat
  totalKey : Nat

/-- `ResultProcessor.to_dataframe`. -/
def to_dataframe (lp : Fin 8 → Option Int) (nfc : Nat) : Distribution :=
  { colVals := fun c => colTotal lp c
    key0 := nfc
    totalKey := grandTotal lp + nfc }

/-- Whether row `r` receives a mark (`last_positions[r]` exists and lies in 1..12). -/
def rowMarked (lp : Fin 8 → Option Int) (r : Fin 8) : Bool :=
  match lp r with
  | some v => decide (1 ≤ v) && decide (v ≤ 12)
  | none => false

/-! ## CalibrationService (calibration_service.py) -/

/-- The `bounds` object of a calibration config. -/
structure Bounds where
  left : ℚ
  right : ℚ
  top : ℚ
  bottom : ℚ
deriving DecidableEq, Repr

/-- The calibration JSON file contents; absent keys are `none`
(a JSON `null` value behaves like an absent key on every path used here). -/
structure RawConfig where
  bounds : Option Bounds
  columns : Option (List ℚ)
  rows : Option (List ℚ)
  image_width : Option ℚ
  image_height : Option ℚ
  format_version : Option Int
deriving DecidableEq, Repr

/-- A resolved grid definition `{"bounds": ..., "columns": ..., "rows": ...}`. -/
structure Grid where
  bounds : Bounds
  columns : List ℚ
  rows : List ℚ
deriving DecidableEq, Repr

/-- `CalibrationService._load`: reject configs missing any of
`bounds`/`columns`/`rows`, and configs whose `format_version`
(defaulting to 2) is below 3. -/
def load : Option RawConfig → Option RawConfig
  | none => none
  | some d =>
      if d.bounds.isNone || d.columns.isNone || d.rows.isNone then none
      else if d.format_version.getD 2 < 3 then none
      else some d

/-- `float(x or 0) or None`: collapse a missing or zero stored size to `none`. -/
def pyFloatOrNone (x : Option ℚ) : Option ℚ :=
  match x with
  | some v => if v = 0 then none else some v
  | none => none

/-- `np.clip(v, 0.0, 1.0)`. -/
def clip01 (v : ℚ) : ℚ := max 0 (min v 1)

/-- `CalibrationService._default_columns`. -/
def _default_columns (cols : Nat) : List ℚ :=
  (List.range (cols + 1)).map (fun i : Nat => (i : ℚ) / (cols : ℚ))

/-- `CalibrationService._default_rows`. -/
def _default_rows (rows : Nat) : List ℚ :=
  (List.range (rows + 1)).map (fun i : Nat => (i : ℚ) / (rows : ℚ))

/-- `CalibrationService._generate_default_grid`. -/
def _generate_default_grid (cols rows : Nat) (width height : Int) : Grid :=
  let left : ℚ := 0
  let right : ℚ := (width : ℚ)
  let top : ℚ := 0
  let bottom : ℚ := (height : ℚ)
  let width_span := max (right - left) 1
  let height_span := max (bottom - top) 1
  { bounds := ⟨left, right, top, bottom⟩
    columns := (_default_columns cols).map (fun v => left + v * width_span)
    rows := (_default_rows rows).map (fun v => top + v * height_span) }

/-- `CalibrationService.get_grid` on frame shape `(height, width)`.
The `self._load()` call at its head is the `load` applied to the stored file. -/
def get_grid (cols rows : Nat) (stored : Option RawConfig) (height width : Int) :
    Except String Grid :=
  if width ≤ 0 ∨ height ≤ 0 then Except.error "Frame size must be positive"
  else
    let config := load stored
    let format_version : Int := (config.bind RawConfig.format_version).getD 2
    match config.bind RawConfig.bounds, config.bind RawConfig.columns,
        config.bind RawConfig.rows with
    | some bounds, some columns, some rowsList =>
      if columns.isEmpty || rowsList.isEmpty then
        Except.ok (_generate_default_grid cols rows width height)
      else if format_version = 3 then
        match pyFloatOrNone (config.bind RawConfig.image_width),
            pyFloatOrNone (config.bind RawConfig.image_height) with
        | some stored_width, some stored_height =>
          if stored_width ≠ (width : ℚ) ∨ stored_height ≠ (height : ℚ) then
            let scale_x := (width : ℚ) / stored_width
            let scale_y := (height : ℚ) / stored_height
            Except.ok
              { bounds := ⟨bounds.left * scale_x, bounds.right * scale_x,
                           bounds.top * scale_y, bounds.bottom * scale_y⟩
                columns := columns.map (fun v => v * scale_x)
                rows := rowsList.map (fun v => v * scale_y) }
          else Except.ok ⟨bounds, columns, rowsList⟩
        | _, _ => Except.ok ⟨bounds, columns, rowsList⟩
      else
        let left := clip01 bounds.left * (width : ℚ)
        let right := clip01 bounds.right * (width : ℚ)
        let top := clip01 bounds.top * (height : ℚ)
        let bottom := clip01 bounds.bottom * (height : ℚ)
        let width_span := max (right - left) 1
        let height_span := max (bottom - top) 1
        Except.ok
          { bounds := ⟨left, right, top, bottom⟩
            columns := columns.map (fun v => left + clip01 v * width_span)
            rows := rowsList.map (fun v => top + clip01 v * height_span) }
    | _, _, _ => Except.ok (_generate_default_grid cols rows width height)

/-- Python `range(start, stop, step)` (raises on `step = 0`). -/
def pyRange (start stop step : Int) : Except String (List Int) :=
  if step = 0 then Except.error "range() arg 3 must not be zero"
  else if 0 < step then
    Except.ok ((List.range (max 0 ((stop - start + step - 1) / step)).toNat).map
      (fun i : Nat => start + step * (i : Int)))
  else
    Except.ok ((List.range (max 0 ((start - stop - step - 1) / (-step))).toNat).map
      (fun i : Nat => start + step * (i : Int)))

/-- The config object persisted by `CalibrationService.save`
(the wall-clock `updated_at` stamp is an effect and is not modelled). -/
structure SaveConfig where
  bounds : Bounds
  columns : List ℚ
  rows : List ℚ
  image_width : Int
  image_height : Int
  format_version : Int
deriving DecidableEq, Repr

/-- Default line positions used by `save`:
`list(range(0, size + 1, size // n))`. -/
def saveDefaultLines (size : Int) (n : Nat) : Except String (List ℚ) :=
  (pyRange 0 (size + 1) (size / (n : Int))).map (List.map (fun i : Int => (i : ℚ)))

/-- `CalibrationService.save`: validate the image size, then build and persist
the config, defaulting `bounds`/`columns`/`rows` when absent or empty
(Python `x or default`). -/
def save (cols rows : Nat) (image_width image_height : Int)
    (bounds : Option Bounds) (columns rowsArg : Option (List ℚ)) :
    Except String SaveConfig :=
  if image_width ≤ 0 ∨ image_height ≤ 0 then
    Except.error "Image dimensions must be positive"
  else
    let b := match bounds with
      | some bb => bb
      | none => ⟨0, (image_width : ℚ), 0, (image_height : ℚ)⟩
    let colsRes := match columns with
      | some l => if l.isEmpty then saveDefaultLines image_width cols else Except.ok l
      | none => saveDefaultLines image_width cols
    match colsRes with
    | Except.error e => Except.error e
    | Except.ok cs =>
      let rowsRes := match rowsArg with
        | some l => if l.isEmpty then saveDefaultLines image_height rows else Except.ok l
        | none => saveDefaultLines image_height rows
      match rowsRes with
      | Except.error e => Except.error e
      | Except.ok rs =>
        Except.ok
          { bounds := b, columns := cs, rows := rs
            image_width := image_width, image_height := image_height
            format_version := 3 }

/-! ## GridBuilder (grid_builder_service.py) -/

/-- `GridBuilder._generate_default_grid` (pixel variant, no 1-pixel clamp). -/
def gb_generate_default_grid (rows cols : Nat) (width height : Int) : Grid :=
  { bounds := ⟨0, (width : ℚ), 0, (height : ℚ)⟩
    columns := (List.range (cols + 1)).map (fun i : Nat => (i : ℚ) * (width : ℚ) / (cols : ℚ))
    rows := (List.range (rows + 1)).map (fun i : Nat => (i : ℚ) * (height : ℚ) / (rows : ℚ)) }

/-- `GridBuilder._get_grid_from_override` on frame shape `(height, width)`:
like the v3 path of `get_grid` but with no `_load` validation, a
`format_version` default of 3, and acceptance of any version `>= 3`. -/
def _get_grid_from_override (rows cols : Nat) (override : Option RawConfig)
    (height width : Int) : Grid :=
  match override.bind RawConfig.bounds, override.bind RawConfig.columns,
      override.bind RawConfig.rows with
  | some bounds, some columns, some rowsList =>
    if columns.isEmpty || rowsList.isEmpty then gb_generate_default_grid rows cols width height
    else
      let format_version : Int := (override.bind RawConfig.format_version).getD 3
      if 3 ≤ format_version then
        match pyFloatOrNone (override.bind RawConfig.image_width),
            pyFloatOrNone (override.bind RawConfig.image_height) with
        | some stored_width, some stored_height =>
          if stored_width ≠ (width : ℚ) ∨ stored_height ≠ (height : ℚ) then
            let scale_x := (width : ℚ) / stored_width
            let scale_y := (height : ℚ) / stored_height
            { bounds := ⟨bounds.left * scale_x, bounds.right * scale_x,
                         bounds.top * scale_y, bounds.bottom * scale_y⟩
              columns := columns.map (fun v => v * scale_x)
              rows := rowsList.map (fun v => v * scale_y) }
          else ⟨bounds, columns, rowsList⟩
        | _, _ => ⟨bounds, columns, rowsList⟩
      else gb_generate_default_grid rows cols width height
  | _, _, _ => gb_generate_default_grid rows cols width height

/-- Python 3 `int(round(x))`: round half to even. -/
def pyround (q : ℚ) : Int :=
  let f := ⌊q⌋
  let r := q - (f : ℚ)
  if r < 1/2 then f
  else if 1/2 < r then f + 1
  else if f % 2 = 0 then f else f + 1

/-- `np.linspace(start, stop, num)` for `num ≥ 2`. -/
def linspace (start stop : ℚ) (num : Nat) : List ℚ :=
  (List.range num).map (fun i : Nat => start + (stop - start) * (i : ℚ) / ((num : ℚ) - 1))

/-- `GridBuilder._create_row_labels`. -/
def _create_row_labels (rows : Nat) : List String :=
  let alphabet := "ABCDEFGHIJKLMNOPQRSTUVWXYZ".data
  if rows ≤ 26 then (alphabet.take rows).map (fun c => String.mk [c])
  else
    (List.range rows).map (fun index =>
      let pre := if 26 ≤ index then String.mk [alphabet.getD (index / 26 - 1) '?'] else ""
      pre ++ String.mk [alphabet.getD (index % 26) '?'])

/-- `GridBuilder._build_grid` on an image of shape `(height, width)`
(the cv2 drawing side effects are not modelled). -/
def _build_grid (rows cols : Nat) (height width : Int)
    (vertical_lines horizontal_lines : List ℚ) : List Well :=
  let vlines := if vertical_lines.length ≠ cols + 1 then
      linspace 0 (width : ℚ) (cols + 1) else vertical_lines
  let hlines := if horizontal_lines.length ≠ rows + 1 then
      linspace 0 (height : ℚ) (rows + 1) else horizontal_lines
  let labels := _create_row_labels rows
  (List.range rows).flatMap (fun row_index =>
    (List.range cols).map (fun col_index =>
      ({ label := labels.getD row_index "" ++ toString (col_index + 1)
         top_left := (pyround (vlines.getD col_index 0), pyround (hlines.getD row_index 0))
         bottom_right :=
           (pyround (vlines.getD (col_index + 1) 0), pyround (hlines.getD (row_index + 1) 0))
         predictions := [] } : Well)))

/-! ## Predictor (predictor_service.py) -/

/-- A raw detection bounding box `[x1, y1, x2, y2]` (integer pixels). -/
structure BBox where
  x1 : Int
  y1 : Int
  x2 : Int
  y2 : Int
deriving DecidableEq, Repr

/-- The containment test of `Predictor._find_well`:
`tl[0] <= center_x <= br[0] and tl[1] <= center_y <= br[1]`. -/
def wellContains (w : Well) (cx cy : ℚ) : Bool :=
  decide ((w.top_left.1 : ℚ) ≤ cx) && decide (cx ≤ (w.bottom_right.1 : ℚ)) &&
  decide ((w.top_left.2 : ℚ) ≤ cy) && decide (cy ≤ (w.bottom_right.2 : ℚ))

/-- The centroid of a bounding box (`(x1 + x2) / 2`, true division). -/
def centerX (bbox : BBox) : ℚ := ((bbox.x1 : ℚ) + (bbox.x2 : ℚ)) / 2

/-- The centroid of a bounding box (`(y1 + y2) / 2`, true division). -/
def centerY (bbox : BBox) : ℚ := ((bbox.y1 : ℚ) + (bbox.y2 : ℚ)) / 2

/-- `Predictor._find_well`: label of the first well (list order) whose
rectangle contains the detection centroid, else `None`. -/
def _find_well (bbox : BBox) (wells : List Well) : Option String :=
  (wells.find? (fun w => wellContains w (centerX bbox) (centerY bbox))).map Well.label

/-! ## Remaining ResultProcessor helpers used by the worker -/

/-- `ResultProcessor.last_positions`: per row, the highest 1-based column with a
nonzero count; rows without one omitted. -/
def last_positions (row_counts : List (String × List Nat)) : List (String × Nat) :=
  row_counts.filterMap (fun p =>
    match (((List.range p.2.length).filter (fun i => 0 < p.2.getD i 0)).map (· + 1)).max? with
    | some m => some (p.1, m)
    | none => none)

/-- `ResultProcessor.count_non_flowing_rows`: rows that have predictions but no
target-class detection at all. -/
def count_non_flowing_rows (wells : List Well) : Nat :=
  let active := wells.filter (fun w => !w.predictions.isEmpty)
  let keys := (active.map (fun w => String.mk (w.label.data.take 1))).dedup
  (keys.filter (fun r =>
    !(active.any (fun w =>
      (String.mk (w.label.data.take 1) == r) &&
      w.predictions.any (fun pr => pr.cls == targetClass))))).length

/-! ## InferenceWorker.process_inference_job (worker.py)

The worker drives one job through download → grid → detect → aggregate →
concurrent persistence → final status update. Each outbound effect
(HTTP call, file read, model inference) is modelled by its outcome, supplied
in an `Effects` record; the orchestration logic itself is embedded faithfully
and returns a `Trace` of what it attempted and the final run update. -/

/-- The `data` object of a successful upload response. -/
structure UploadData where
  objectKey : Option String
  filePath : Option String
  signedUrl : Option String
deriving DecidableEq, Repr

/-- An `image_uploader.upload_image` response. -/
structure UploadResult where
  success : Bool
  data : UploadData
deriving DecidableEq, Repr

/-- Python `a or b` on optional strings (`None` and `""` are falsy). -/
def pyOrStr (a b : Option String) : Option String :=
  match a with
  | some s => if s = "" then b else some s
  | none => b

/-- The job-message fields read by `process_inference_job`. -/
structure JobData where
  run_id : Int
  sample_no : String
  image_path : Option String
  jwt_token : Option String
  created_by : Option String
deriving DecidableEq, Repr

/-- Outcomes of the effectful collaborators consulted while processing one
job. `Except.error e` means the call raised with message `e`. -/
structure Effects where
  /-- `db_service.update_prediction_run(run_id, {"status": "processing"})`. -/
  updateProcessing : Except String Unit
  /-- `image_uploader.download_image_from_pvc` result (it never raises). -/
  downloadSuccess : Bool
  /-- Whether `cv2.imread` returned an image (not `None`). -/
  imreadOk : Bool
  /-- `grid_builder.draw` outcome. -/
  gridBuild : Except String Unit
  /-- `predictor.predict` outcome: the wells with attached predictions. -/
  predictRun : Except String (List Well)
  /-- The `uuid4().hex[:8]` fragment of the annotated file name. -/
  annotatedHex : String
  /-- `image_uploader.upload_image` outcome for the annotated image. -/
  upload : Except String UploadResult
  /-- `db_service.create_row_counts` outcome (settled inside `gather`). -/
  createRowCounts : Except String Unit
  /-- `db_service.create_inference_results` outcome (settled inside `gather`). -/
  createInferenceResults : Except String Unit
  /-- `db_service.create_well_predictions` outcome (settled inside `gather`). -/
  createWellPredictions : Except String Unit
  /-- The final `update_prediction_run(..., "completed", ...)` outcome. -/
  updateCompleted : Except String Unit
  /-- The `update_prediction_run(..., "failed", ...)` outcome (its failure is
  only logged, so it does not influence the trace). -/
  updateFailed : Except String Unit

/-- The last `update_prediction_run` call attempted with a terminal status. -/
structure FinalUpdate where
  status : String
  errorMsg : Option String
  annotatedImagePath : Option String
deriving DecidableEq, Repr

/-- What one `process_inference_job` run attempted, and its terminal update. -/
structure Trace where
  modelInvoked : Bool
  uploadAttempted : Bool
  rowCountsAttempted : Bool
  resultsAttempted : Bool
  wellPredsAttempted : Bool
  finalUpdate : Option FinalUpdate
deriving DecidableEq, Repr

/-- `os.path.basename`. -/
def basename (p : String) : String :=
  String.mk ((p.data.reverse.takeWhile (fun c => c ≠ '/')).reverse)

/-- The local temp path the image is downloaded to:
`/tmp/{run_id}_{basename(image_path)}`. -/
def localImagePath (job : JobData) (p : String) : String :=
  "/tmp/" ++ toString job.run_id ++ "_" ++ basename p

/-- `Config.UPLOAD_DIR` default. -/
def UPLOAD_DIR : String := "/tmp"

/-- The local temp path of the annotated image:
`{UPLOAD_DIR}/{run_id}_annotated_{hex}.jpg`. -/
def annotatedLocalPath (job : JobData) (hex : String) : String :=
  UPLOAD_DIR ++ "/" ++ toString job.run_id ++ "_annotated_" ++ hex ++ ".jpg"

/-- The trace produced when the top-level `except` handler catches message
`msg`: a `failed` update carrying the message is attempted. -/
def failTrace (msg : String) (mi ua rca ra wpa : Bool) : Trace :=
  { modelInvoked := mi, uploadAttempted := ua, rowCountsAttempted := rca,
    resultsAttempted := ra, wellPredsAttempted := wpa,
    finalUpdate := some
      { status := "failed", errorMsg := some msg, annotatedImagePath := none } }

/-- `InferenceWorker.process_inference_job`. -/
def process_inference_job (job : JobData) (eff : Effects) : Trace :=
  match eff.updateProcessing with
  | Except.error e => failTrace e false false false false false
  | Except.ok _ =>
  match job.image_path with
  | none => failTrace "No image_path provided in job_data" false false false false false
  | some p =>
  if p = "" then failTrace "No image_path provided in job_data" false false false false false
  else if eff.downloadSuccess = false then
    failTrace ("Failed to download image from PVC: " ++ p) false false false false false
  else if eff.imreadOk = false then
    failTrace ("Unable to load downloaded image: " ++ localImagePath job p)
      false false false false false
  else
  match eff.gridBuild with
  | Except.error e => failTrace e false false false false false
  | Except.ok _ =>
  match eff.predictRun with
  | Except.error e => failTrace e true false false false false
  | Except.ok wells =>
    let well_predictions := wells.flatMap (fun w => w.predictions.map (fun pr => (w.label, pr)))
    match count_by_row wells with
    | Except.error e => failTrace e true false false false false
    | Except.ok counts =>
      let _lp := last_positions counts
      let _nfc := count_non_flowing_rows wells
      let annotated_path := annotatedLocalPath job eff.annotatedHex
      let minio : Option String :=
        match eff.upload with
        | Except.error _ => none
        | Except.ok r =>
          if r.success then pyOrStr (pyOrStr r.data.objectKey r.data.filePath) r.data.signedUrl
          else none
      let wpa := !well_predictions.isEmpty
      match eff.updateCompleted with
      | Except.error e => failTrace e true true true true wpa
      | Except.ok _ =>
        { modelInvoked := true, uploadAttempted := true, rowCountsAttempted := true,
          resultsAttempted := true, wellPredsAttempted := wpa,
          finalUpdate := some
            { status := "completed", errorMsg := none
              annotatedImagePath := some
                (match minio with
                 | some s => if s = "" then annotated_path else s
                 | none => annotated_path) } }

/-! ## Derived geometric notions used to state the grid/assignment claims -/

/-- A point strictly inside a well rectangle (its open interior). -/
def strictlyInside (w : Well) (x y : ℚ) : Prop :=
  (w.top_left.1 : ℚ) < x ∧ x < (w.bottom_right.1 : ℚ) ∧
  (w.top_left.2 : ℚ) < y ∧ y < (w.bottom_right.2 : ℚ)

/-- Closed containment in a well rectangle (the test `_find_well` runs). -/
def insideClosed (w : Well) (x y : ℚ) : Prop :=
  (w.top_left.1 : ℚ) ≤ x ∧ x ≤ (w.bottom_right.1 : ℚ) ∧
  (w.top_left.2 : ℚ) ≤ y ∧ y ≤ (w.bottom_right.2 : ℚ)

/-- The rectangles of a well list are pairwise non-overlapping in their
interiors. -/
def pairwiseDisjointInteriors (wells : List Well) : Prop :=
  ∀ i j : Fin wells.length, i ≠ j →
    ∀ x y : ℚ, strictlyInside (wells.get i) x y → ¬strictlyInside (wells.get j) x y

/-- A non-degenerate well rectangle (positive width and height). -/
def nondegenerate (w : Well) : Prop :=
  w.top_left.1 < w.bottom_right.1 ∧ w.top_left.2 < w.bottom_right.2

/-- The well record `_build_grid` emits for row `r`, column `c` when the
supplied line lists already have the expected lengths. -/
def wellAt (rows : Nat) (v h : List ℚ) (r c : Nat) : Well :=
  { label := (_create_row_labels rows).getD r "" ++ toString (c + 1)
    top_left := (pyround (v.getD c 0), pyround (h.getD r 0))
    bottom_right := (pyround (v.getD (c + 1) 0), pyround (h.getD (r + 1) 0))
    predictions := [] }

/-! ## Theorems -/

lemma sum_indicator_fin12 (v : Int) :
    (∑ c : Fin 12, if v = (c : Int) + 1 then 1 else 0) =
      if 1 ≤ v ∧ v ≤ 12 then 1 else 0 := by
  by_cases hv : 1 ≤ v ∧ v ≤ 12
  · obtain ⟨h1, h2⟩ := hv
    have hcd : (v - 1).toNat < 12 := by omega
    rw [if_pos ⟨h1, h2⟩, Finset.sum_eq_single (⟨(v - 1).toNat, hcd⟩ : Fin 12)]
    · rw [if_pos]
      simp only [Fin.val_mk]
      omega
    · intro b _ hb
      rw [if_neg]
      intro hvb
      apply hb
      apply Fin.ext
      simp only [Fin.val_mk]
      omega
    · intro h
      exact absurd (Finset.mem_univ _) h
  · rw [if_neg hv, Finset.sum_eq_zero]
    intro c _
    rw [if_neg]
    intro hc
    apply hv
    have := c.isLt
    omega

lemma rowTotal_eq_marked (lp : Fin 8 → Option Int) (r : Fin 8) :
    rowTotal lp r = if rowMarked lp r then 1 else 0 := by
  unfold rowTotal markCell rowMarked
  cases hlp : lp r with
  | none => simp
  | some v =>
    simp only [Option.some.injEq]
    rw [sum_indicator_fin12 v]
    by_cases hv : 1 ≤ v ∧ v ≤ 12
    · rw [if_pos hv, if_pos (by simp [hv.1, hv.2])]
    · rw [if_neg hv, if_neg]
      simp only [Bool.and_eq_true, decide_eq_true_eq]
      omega

lemma grandTotal_eq_marked_card (lp : Fin 8 → Option Int) :
    grandTotal lp = (Finset.univ.filter (fun r => rowMarked lp r = true)).card := by
  unfold grandTotal colTotal
  rw [Finset.sum_comm]
  calc (∑ r : Fin 8, ∑ c : Fin 12, markCell lp r c)
      = ∑ r : Fin 8, rowTotal lp r := rfl
    _ = ∑ r : Fin 8, if rowMarked lp r = true then 1 else 0 := by
        apply Finset.sum_congr rfl
        intro r _
        rw [rowTotal_eq_marked]
    _ = (Finset.univ.filter (fun r => rowMarked lp r = true)).card := by
        rw [Finset.card_filter]

/-- C1: for every `last_positions` mapping and every `non_flowing_count`, the
distribution dataframe built by `to_dataframe` has exactly 8 row keys (A–H)
with 13 numeric fields each; its Total-row `total` entry equals the number of
rows with a marked position; the key "0" of the flattened mapping equals
`non_flowing_count` exactly, and its `total` key equals the number of marked
rows plus `non_flowing_count`. -/
theorem C1_to_dataframe_shape_and_totals (lp : Fin 8 → Option Int) (nfc : Nat) :
    (distributionRows lp).length = 8 ∧
    (distributionRows lp).map (fun p => p.2.length) = List.replicate 8 13 ∧
    grandTotal lp = (Finset.univ.filter (fun r => rowMarked lp r = true)).card ∧
    (to_dataframe lp nfc).key0 = nfc ∧
    (to_dataframe lp nfc).totalKey =
      (Finset.univ.filter (fun r => rowMarked lp r = true)).card + nfc := by
  refine ⟨?_, ?_, grandTotal_eq_marked_card lp, rfl, ?_⟩
  · rw [distributionRows, List.length_map, List.length_finRange]
  · simp only [distributionRows, List.map_map]
    have : ∀ r : Fin 8, ((dfRow lp r).length) = 13 := by
      intro r
      simp [dfRow]
    apply List.eq_replicate_of_mem
    intro b hb
    simp only [List.mem_map] at hb
    obtain ⟨r, _, hr⟩ := hb
    rw [← hr]
    simpa using this r
  · show grandTotal lp + nfc = _
    rw [grandTotal_eq_marked_card]

lemma mem_updateAssoc : ∀ (counts : List (String × List Nat)) (k : String) (v : List Nat)
    (p : String × List Nat), p ∈ updateAssoc counts k v → p ∈ counts ∨ p = (k, v)
  | [], k, v, p, hp => by
      simp only [updateAssoc, List.mem_singleton] at hp
      exact Or.inr hp
  | (k0, v0) :: rest, k, v, p, hp => by
      rw [updateAssoc] at hp
      split at hp
      · rcases List.mem_cons.1 hp with h | h
        · exact Or.inr h
        · exact Or.inl (List.mem_cons_of_mem _ h)
      · rcases List.mem_cons.1 hp with h | h
        · exact Or.inl (by rw [h]; exact List.mem_cons_self _ _)
        · rcases mem_updateAssoc rest k v p h with h2 | h2
          · exact Or.inl (List.mem_cons_of_mem _ h2)
          · exact Or.inr h2

lemma lookupAssoc_mem {counts : List (String × List Nat)} {k : String} {l : List Nat}
    (h : lookupAssoc counts k = some l) : ∃ k0, (k0, l) ∈ counts := by
  unfold lookupAssoc at h
  cases hf : counts.find? (fun p => p.1 = k) with
  | none => rw [hf] at h; cases h
  | some q =>
      rw [hf] at h
      cases h
      exact ⟨q.1, List.mem_of_find?_eq_some hf⟩

lemma pySet_zero_allZero {cur : List Nat} {col : Int} {out : List Nat}
    (hcur : ∀ x ∈ cur, x = 0) (h : pySet cur col 0 = Except.ok out) :
    ∀ x ∈ out, x = 0 := by
  unfold pySet at h
  split at h
  · cases h
    intro x hx
    rcases List.mem_or_eq_of_mem_set hx with h2 | h2
    · exact hcur x h2
    · exact h2
  · split at h
    · cases h
      intro x hx
      rcases List.mem_or_eq_of_mem_set hx with h2 | h2
      · exact hcur x h2
      · exact h2
    · cases h

lemma count_loop_zero : ∀ (ws : List Well) (counts res : List (String × List Nat)),
    (∀ w ∈ ws, ∀ pr ∈ w.predictions, pr.cls ≠ targetClass) →
    (∀ p ∈ counts, ∀ x ∈ p.2, x = 0) →
    count_by_row_loop ws counts = Except.ok res →
    ∀ p ∈ res, ∀ x ∈ p.2, x = 0
  | [], counts, res, _, hz, h => by
      rw [count_by_row_loop] at h
      cases h
      exact hz
  | w :: ws, counts, res, hw, hz, h => by
      rw [count_by_row_loop] at h
      split at h
      · exact count_loop_zero ws counts res
          (fun u hu => hw u (List.mem_cons_of_mem _ hu)) hz h
      · simp only at h
        split at h
        · cases h
        · rename_i n hn
          have htc : (w.predictions.filter (fun p => p.cls = targetClass)).length = 0 := by
            rw [List.length_eq_zero, List.filter_eq_nil_iff]
            intro pr hpr
            simpa using hw w (List.mem_cons_self _ _) pr hpr
          rw [htc] at h
          split at h
          · cases h
          · rename_i newRow hset
            have hcurz : ∀ x ∈ (lookupAssoc counts (String.mk (w.label.data.take 1))).getD
                (List.replicate 12 0), x = 0 := by
              cases hlk : lookupAssoc counts (String.mk (w.label.data.take 1)) with
              | none =>
                  intro x hx
                  exact List.eq_of_mem_replicate hx
              | some l =>
                  obtain ⟨k0, hk0⟩ := lookupAssoc_mem hlk
                  exact hz _ hk0
            have hnewz : ∀ x ∈ newRow, x = 0 := pySet_zero_allZero hcurz hset
            refine count_loop_zero ws _ res
              (fun u hu => hw u (List.mem_cons_of_mem _ hu)) ?_ h
            intro p hp
            rcases mem_updateAssoc _ _ _ _ hp with h2 | h2
            · exact hz p h2
            · rw [h2]
              exact hnewz

lemma allZero_trim_nil {counts : List (String × List Nat)}
    (hz : ∀ p ∈ counts, ∀ x ∈ p.2, x = 0) :
    (counts.filterMap (fun p =>
      match lastNonzeroIdx p.2 with
      | some i => some (p.1, p.2.take (i + 1))
      | none => none)) = [] := by
  rw [List.filterMap_eq_nil_iff]
  intro p hp
  have hnone : lastNonzeroIdx p.2 = none := by
    unfold lastNonzeroIdx
    rw [List.max?_eq_none_iff, List.filter_eq_nil_iff]
    intro i hi
    have hlt : i < p.2.length := List.mem_range.1 hi
    simp only [decide_eq_true_eq]
    rw [List.getD_eq_getElem _ _ hlt, hz p hp _ (List.getElem_mem hlt)]
    simp
  rw [hnone]

/-- C8: every row vector returned by `count_by_row` ends in a nonzero entry,
and when no prediction in any well has the target class the returned mapping
is empty. -/
theorem C8_count_by_row_trim_and_empty (wells : List Well)
    (m : List (String × List Nat)) (h : count_by_row wells = Except.ok m) :
    (∀ p ∈ m, ∃ k, p.2.getLast? = some k ∧ 0 < k) ∧
    ((∀ w ∈ wells, ∀ pr ∈ w.predictions, pr.cls ≠ targetClass) → m = []) := by
  unfold count_by_row at h
  cases hloop : count_by_row_loop wells [] with
  | error e => rw [hloop] at h; cases h
  | ok counts =>
    rw [hloop] at h
    simp only [Except.map] at h
    cases h
    constructor
    · intro p hp
      rcases List.mem_filterMap.1 hp with ⟨q, hq, hfq⟩
      cases hidx : lastNonzeroIdx q.2 with
      | none => rw [hidx] at hfq; cases hfq
      | some i =>
        rw [hidx] at hfq
        cases hfq
        have hi : i ∈ (List.range q.2.length).filter (fun j => 0 < q.2.getD j 0) :=
          List.max?_mem (fun a b => max_choice a b) hidx
        rcases List.mem_filter.1 hi with ⟨hir, hipos⟩
        have hilt : i < q.2.length := List.mem_range.1 hir
        have hpos : 0 < q.2.getD i 0 := by simpa using hipos
        rw [List.getD_eq_getElem _ _ hilt] at hpos
        refine ⟨q.2[i], ?_, hpos⟩
        rw [List.getLast?_eq_getElem?]
        have hlen : (q.2.take (i + 1)).length = i + 1 := by
          rw [List.length_take]
          omega
        rw [hlen]
        simp only [Nat.add_sub_cancel]
        rw [List.getElem?_take]
        simp [hilt, List.getElem?_eq_getElem hilt]
    · intro hw
      exact allZero_trim_nil (count_loop_zero wells [] counts hw (by simp) hloop)

/-- C8 witness: a concrete well list with one Flowing detection in well A3. -/
theorem C8_witness :
    count_by_row [⟨"A3", (0, 0), (1, 1), [⟨"Flowing", 1, []⟩]⟩] =
      Except.ok [("A", [0, 0, 1])] ∧
    ((∀ p ∈ [("A", [0, 0, 1])], ∃ k, p.2.getLast? = some k ∧ 0 < k) ∧
     ((∀ w ∈ [(⟨"A3", (0, 0), (1, 1), [⟨"Flowing", 1, []⟩]⟩ : Well)],
        ∀ pr ∈ w.predictions, pr.cls ≠ targetClass) →
       [("A", [0, 0, 1])] = ([] : List (String × List Nat)))) :=
  ⟨by decide, C8_count_by_row_trim_and_empty _ _ (by decide)⟩

/-- C4 counterexample: `save(13, 13)` with defaulted columns and rows succeeds
(13 > 0), yet the persisted config has 14 column entries, not `cols + 1 = 13`
(and 14 row entries, not `rows + 1 = 9`): `list(range(0, 14, 13 // 12))` is
`list(range(0, 14, 1))`, which has 14 elements. -/
theorem C4_counterexample :
    (save 12 8 13 13 none none none).map
      (fun cfg => (cfg.format_version, cfg.columns.length, cfg.rows.length)) =
      Except.ok (3, 14, 14) := by decide

lemma saveDefaultLines_dvd {size : Int} {n : Nat} (hn : 0 < (n : Int))
    (hpos : 0 < size) (hdvd : (n : Int) ∣ size) :
    ∃ l, saveDefaultLines size n = Except.ok l ∧ l.length = n + 1 := by
  obtain ⟨k, hk⟩ := hdvd
  have hk0 : 0 < k := by
    by_contra hle
    push_neg at hle
    have : (n : Int) * k ≤ 0 := mul_nonpos_of_nonneg_of_nonpos (le_of_lt hn) hle
    omega
  have hstep : size / (n : Int) = k := by
    rw [hk, Int.mul_ediv_cancel_left _ (ne_of_gt hn)]
  have hcount : size + 1 - 0 + k - 1 = ((n : Int) + 1) * k := by
    rw [hk]
    ring
  unfold saveDefaultLines pyRange
  rw [hstep, if_neg (ne_of_gt hk0), if_pos hk0, hcount,
    Int.mul_ediv_cancel _ (ne_of_gt hk0)]
  refine ⟨_, rfl, ?_⟩
  simp only [List.length_map, List.length_range]
  omega

/-- C4 (amended): `save` raises exactly when `image_width ≤ 0` or
`image_height ≤ 0`, and every persisted config has `format_version = 3`;
the defaulted columns and rows satisfy the `cols + 1` / `rows + 1` length
invariant when `cols` divides the width and `rows` divides the height — the
counterexample `save(13, 13)` shows the invariant does not hold for arbitrary
positive sizes, and `save` never validates the lengths of explicitly supplied
columns/rows at all. -/
theorem C4_save_amended (W H : Int) (hW : (12 : Int) ∣ W) (hH : (8 : Int) ∣ H) :
    ((∃ e, save 12 8 W H none none none = Except.error e) ↔ W ≤ 0 ∨ H ≤ 0) ∧
    ∀ cfg, save 12 8 W H none none none = Except.ok cfg →
      cfg.format_version = 3 ∧ cfg.columns.length = 12 + 1 ∧ cfg.rows.length = 8 + 1 := by
  by_cases hWH : W ≤ 0 ∨ H ≤ 0
  · constructor
    · exact ⟨fun _ => hWH, fun _ =>
        ⟨"Image dimensions must be positive", by unfold save; rw [if_pos hWH]⟩⟩
    · intro cfg hcfg
      unfold save at hcfg
      rw [if_pos hWH] at hcfg
      cases hcfg
  · push_neg at hWH
    obtain ⟨hW0, hH0⟩ := hWH
    obtain ⟨lc, hlc, hlclen⟩ := saveDefaultLines_dvd (by norm_num) hW0 hW
    obtain ⟨lr, hlr, hlrlen⟩ := saveDefaultLines_dvd (by norm_num) hH0 hH
    have hsave : save 12 8 W H none none none = Except.ok
        { bounds := ⟨0, (W : ℚ), 0, (H : ℚ)⟩, columns := lc, rows := lr
          image_width := W, image_height := H, format_version := 3 } := by
      unfold save
      rw [if_neg (by omega)]
      simp only [hlc, hlr]
    constructor
    · constructor
      · intro ⟨e, he⟩
        rw [hsave] at he
        cases he
      · intro hle
        omega
    · intro cfg hcfg
      rw [hsave] at hcfg
      cases hcfg
      exact ⟨rfl, hlclen, hlrlen⟩

/-- C4 witness: the amended theorem applied at width 24, height 16. -/
theorem C4_witness :
    ((12 : Int) ∣ 24 ∧ (8 : Int) ∣ 16) ∧
    (((∃ e, save 12 8 24 16 none none none = Except.error e) ↔
        (24 : Int) ≤ 0 ∨ (16 : Int) ≤ 0) ∧
      ∀ cfg, save 12 8 24 16 none none none = Except.ok cfg →
        cfg.format_version = 3 ∧ cfg.columns.length = 12 + 1 ∧
        cfg.rows.length = 8 + 1) :=
  ⟨⟨⟨2, by decide⟩, ⟨2, by decide⟩⟩, C4_save_amended 24 16 ⟨2, by decide⟩ ⟨2, by decide⟩⟩

lemma load_valid {raw : RawConfig} (hb : raw.bounds.isSome = true)
    (hc : raw.columns.isSome = true) (hr : raw.rows.isSome = true)
    (hv : 3 ≤ raw.format_version.getD 2) : load (some raw) = some raw := by
  obtain ⟨bv, hbv⟩ := Option.isSome_iff_exists.1 hb
  obtain ⟨cv, hcv⟩ := Option.isSome_iff_exists.1 hc
  obtain ⟨rv, hrv⟩ := Option.isSome_iff_exists.1 hr
  simp only [load, hbv, hcv, hrv, Option.isNone_some, Bool.or_self]
  rw [if_neg (by simp), if_neg (by omega)]

/-- C6: resolving a stored format-3 config with positive reference size
`W0 × H0` at any positive target size `W × H` scales the bounds and every
column/row line position by exactly `(W / W0, H / H0)`; resolving at the
stored reference size returns the stored bounds, columns and rows unchanged. -/
theorem C6_get_grid_scales (b : Bounds) (cols rws : List ℚ) (W0 H0 W H : Int)
    (hcols : cols ≠ []) (hrows : rws ≠ [])
    (hW0 : 0 < W0) (hH0 : 0 < H0) (hW : 0 < W) (hH : 0 < H) :
    get_grid 12 8
        (some ⟨some b, some cols, some rws, some (W0 : ℚ), some (H0 : ℚ), some 3⟩) H W =
      Except.ok
        { bounds := ⟨b.left * ((W : ℚ) / (W0 : ℚ)), b.right * ((W : ℚ) / (W0 : ℚ)),
                     b.top * ((H : ℚ) / (H0 : ℚ)), b.bottom * ((H : ℚ) / (H0 : ℚ))⟩
          columns := cols.map (fun v => v * ((W : ℚ) / (W0 : ℚ)))
          rows := rws.map (fun v => v * ((H : ℚ) / (H0 : ℚ))) } ∧
    get_grid 12 8
        (some ⟨some b, some cols, some rws, some (W0 : ℚ), some (H0 : ℚ), some 3⟩) H0 W0 =
      Except.ok ⟨b, cols, rws⟩ := by
  have hload : load (some (⟨some b, some cols, some rws, some (W0 : ℚ), some (H0 : ℚ),
      some 3⟩ : RawConfig)) = some ⟨some b, some cols, some rws, some (W0 : ℚ),
      some (H0 : ℚ), some 3⟩ :=
    load_valid rfl rfl rfl (by simp)
  have hW0Q : ((W0 : ℚ)) ≠ 0 := by
    exact_mod_cast (by omega : W0 ≠ 0)
  have hH0Q : ((H0 : ℚ)) ≠ 0 := by
    exact_mod_cast (by omega : H0 ≠ 0)
  constructor
  · unfold get_grid
    rw [if_neg (by omega)]
    rw [hload]
    simp only [Option.some_bind]
    rw [if_neg (by simp [List.isEmpty_iff, hcols, hrows]), if_pos (by simp)]
    simp only [pyFloatOrNone, if_neg hW0Q, if_neg hH0Q]
    by_cases hcase : (W0 : ℚ) ≠ (W : ℚ) ∨ (H0 : ℚ) ≠ (H : ℚ)
    · rw [if_pos hcase]
    · rw [if_neg hcase]
      push_neg at hcase
      obtain ⟨hw, hh⟩ := hcase
      rw [← hw, ← hh]
      rw [div_self hW0Q, div_self hH0Q]
      simp
  · unfold get_grid
    rw [if_neg (by omega)]
    rw [hload]
    simp only [Option.some_bind]
    rw [if_neg (by simp [List.isEmpty_iff, hcols, hrows]), if_pos (by simp)]
    simp only [pyFloatOrNone, if_neg hW0Q, if_neg hH0Q]
    rw [if_neg (by push_neg; exact ⟨rfl, rfl⟩)]

/-- C6 witness: a concrete stored 100×50 config resolved at 200×100 and at
its own reference size. -/
theorem C6_witness :
    ([(0 : ℚ), 50, 100] ≠ ([] : List ℚ) ∧ [(0 : ℚ), 25, 50] ≠ ([] : List ℚ) ∧
      (0 : Int) < 100 ∧ (0 : Int) < 50 ∧ (0 : Int) < 200 ∧ (0 : Int) < 100) ∧
    (get_grid 12 8
        (some ⟨some ⟨0, 100, 0, 50⟩, some [(0 : ℚ), 50, 100], some [(0 : ℚ), 25, 50],
          some ((100 : Int) : ℚ), some ((50 : Int) : ℚ), some 3⟩) 100 200 =
      Except.ok
        { bounds := ⟨0 * (((200 : Int) : ℚ) / ((100 : Int) : ℚ)),
                     100 * (((200 : Int) : ℚ) / ((100 : Int) : ℚ)),
                     0 * (((100 : Int) : ℚ) / ((50 : Int) : ℚ)),
                     50 * (((100 : Int) : ℚ) / ((50 : Int) : ℚ))⟩
          columns := [(0 : ℚ), 50, 100].map
            (fun v => v * (((200 : Int) : ℚ) / ((100 : Int) : ℚ)))
          rows := [(0 : ℚ), 25, 50].map
            (fun v => v * (((100 : Int) : ℚ) / ((50 : Int) : ℚ))) } ∧
      get_grid 12 8
        (some ⟨some ⟨0, 100, 0, 50⟩, some [(0 : ℚ), 50, 100], some [(0 : ℚ), 25, 50],
          some ((100 : Int) : ℚ), some ((50 : Int) : ℚ), some 3⟩) 50 100 =
      Except.ok ⟨⟨0, 100, 0, 50⟩, [(0 : ℚ), 50, 100], [(0 : ℚ), 25, 50]⟩) :=
  ⟨⟨by decide, by decide, by decide, by decide, by decide, by decide⟩,
    C6_get_grid_scales ⟨0, 100, 0, 50⟩ [(0 : ℚ), 50, 100] [(0 : ℚ), 25, 50]
      100 50 200 100 (by decide) (by decide) (by decide) (by decide) (by decide) (by decide)⟩

lemma load_lt3 (raw : RawConfig) (hv : raw.format_version.getD 2 < 3) :
    load (some raw) = none := by
  simp only [load]
  by_cases h1 : (raw.bounds.isNone || raw.columns.isNone || raw.rows.isNone) = true
  · rw [if_pos h1]
  · rw [if_neg h1, if_pos hv]

/-- C7: a stored config with `format_version < 3` (including a missing
`format_version` key, which defaults to 2) resolves exactly like an absent
config at every target size, and for positive sizes that common result is the
uniform default grid: 13 and 9 linearly spaced lines spanning the image. -/
theorem C7_old_format_like_absent (raw : RawConfig)
    (hv : raw.format_version.getD 2 < 3) (H W : Int) :
    get_grid 12 8 (some raw) H W = get_grid 12 8 none H W ∧
    (0 < W → 0 < H →
      get_grid 12 8 none H W =
        Except.ok
          { bounds := ⟨0, (W : ℚ), 0, (H : ℚ)⟩
            columns := (List.range 13).map (fun i : Nat => (i : ℚ) * (W : ℚ) / 12)
            rows := (List.range 9).map (fun i : Nat => (i : ℚ) * (H : ℚ) / 8) }) := by
  constructor
  · unfold get_grid
    rw [load_lt3 raw hv]
    rfl
  · intro hW hH
    have hWQ : (1 : ℚ) ≤ (W : ℚ) := by exact_mod_cast (by omega : (1 : Int) ≤ W)
    have hHQ : (1 : ℚ) ≤ (H : ℚ) := by exact_mod_cast (by omega : (1 : Int) ≤ H)
    unfold get_grid
    rw [if_neg (by omega)]
    show Except.ok (_generate_default_grid 12 8 W H) = _
    unfold _generate_default_grid _default_columns _default_rows
    simp only [sub_zero, max_eq_left hWQ, max_eq_left hHQ, Except.ok.injEq,
      Grid.mk.injEq, List.map_map]
    refine ⟨trivial, ?_, ?_⟩
    · apply List.map_congr_left
      intro i _
      show 0 + (i : ℚ) / 12 * (W : ℚ) = (i : ℚ) * (W : ℚ) / 12
      ring
    · apply List.map_congr_left
      intro i _
      show 0 + (i : ℚ) / 8 * (H : ℚ) = (i : ℚ) * (H : ℚ) / 8
      ring

/-- C7 witness: a version-2 config behaves like no config at size 12×8. -/
theorem C7_witness :
    ((⟨some ⟨0, 1, 0, 1⟩, some [(0 : ℚ)], some [(0 : ℚ)], none, none,
        some 2⟩ : RawConfig).format_version.getD 2 < 3) ∧
    (get_grid 12 8 (some ⟨some ⟨0, 1, 0, 1⟩, some [(0 : ℚ)], some [(0 : ℚ)], none, none,
        some 2⟩) 8 12 = get_grid 12 8 none 8 12 ∧
      (0 < (12 : Int) → 0 < (8 : Int) →
        get_grid 12 8 none 8 12 =
          Except.ok
            { bounds := ⟨0, ((12 : Int) : ℚ), 0, ((8 : Int) : ℚ)⟩
              columns := (List.range 13).map
                (fun i : Nat => (i : ℚ) * ((12 : Int) : ℚ) / 12)
              rows := (List.range 9).map
                (fun i : Nat => (i : ℚ) * ((8 : Int) : ℚ) / 8) })) :=
  ⟨by decide, C7_old_format_like_absent _ (by decide) 8 12⟩

/-- C10: a format-3 config carrying bounds/columns/rows whose `image_width`
or `image_height` is missing or zero resolves completely unscaled at every
target size — no rescaling to the target image is performed, in both
`CalibrationService.get_grid` and `GridBuilder._get_grid_from_override`. -/
theorem C10_missing_ref_size_unscaled (b : Bounds) (cols rws : List ℚ)
    (ow oh : Option ℚ) (hcols : cols ≠ []) (hrows : rws ≠ [])
    (hsz : ow = none ∨ ow = some 0 ∨ oh = none ∨ oh = some 0)
    (W H : Int) (hW : 0 < W) (hH : 0 < H) :
    get_grid 12 8 (some ⟨some b, some cols, some rws, ow, oh, some 3⟩) H W =
      Except.ok ⟨b, cols, rws⟩ ∧
    _get_grid_from_override 8 12 (some ⟨some b, some cols, some rws, ow, oh, some 3⟩)
      H W = ⟨b, cols, rws⟩ := by
  have hload : load (some (⟨some b, some cols, some rws, ow, oh, some 3⟩ : RawConfig)) =
      some ⟨some b, some cols, some rws, ow, oh, some 3⟩ :=
    load_valid rfl rfl rfl (by simp)
  have hpf : pyFloatOrNone ow = none ∨ pyFloatOrNone oh = none := by
    rcases hsz with h | h | h | h <;> simp [h, pyFloatOrNone]
  have hemp : ¬((cols.isEmpty || rws.isEmpty) = true) := by
    simp [List.isEmpty_iff, hcols, hrows]
  constructor
  · unfold get_grid
    rw [if_neg (by omega), hload]
    simp only [Option.some_bind]
    rw [if_neg hemp, if_pos (by simp)]
    rcases hpf with h | h
    · rw [h]
    · rw [h]
      cases pyFloatOrNone ow <;> rfl
  · unfold _get_grid_from_override
    simp only [Option.some_bind]
    rw [if_neg hemp, if_pos (by simp)]
    rcases hpf with h | h
    · rw [h]
    · rw [h]
      cases pyFloatOrNone ow <;> rfl

/-- C10 witness: a stored config with `image_width = 0` resolved at 200×100. -/
theorem C10_witness :
    ([(0 : ℚ), 50, 100] ≠ ([] : List ℚ) ∧ [(0 : ℚ), 25, 50] ≠ ([] : List ℚ) ∧
      (some (0 : ℚ) = (none : Option ℚ) ∨ some (0 : ℚ) = some (0 : ℚ) ∨
        some (50 : ℚ) = (none : Option ℚ) ∨ some (50 : ℚ) = some (0 : ℚ)) ∧
      (0 : Int) < 200 ∧ (0 : Int) < 100) ∧
    (get_grid 12 8
        (some ⟨some ⟨0, 100, 0, 50⟩, some [(0 : ℚ), 50, 100], some [(0 : ℚ), 25, 50],
          some 0, some 50, some 3⟩) 100 200 =
      Except.ok ⟨⟨0, 100, 0, 50⟩, [(0 : ℚ), 50, 100], [(0 : ℚ), 25, 50]⟩ ∧
    _get_grid_from_override 8 12
        (some ⟨some ⟨0, 100, 0, 50⟩, some [(0 : ℚ), 50, 100], some [(0 : ℚ), 25, 50],
          some 0, some 50, some 3⟩) 100 200 =
      ⟨⟨0, 100, 0, 50⟩, [(0 : ℚ), 50, 100], [(0 : ℚ), 25, 50]⟩) :=
  ⟨⟨by decide, by decide, Or.inr (Or.inl rfl), by decide, by decide⟩,
    C10_missing_ref_size_unscaled ⟨0, 100, 0, 50⟩ [(0 : ℚ), 50, 100] [(0 : ℚ), 25, 50]
      (some 0) (some 50) (by decide) (by decide) (Or.inr (Or.inl rfl)) 200 100
      (by decide) (by decide)⟩

lemma wellContains_iff (w : Well) (cx cy : ℚ) :
    wellContains w cx cy = true ↔ insideClosed w cx cy := by
  simp [wellContains, insideClosed, and_assoc]

lemma interval_overlap {a1 b1 a2 b2 p : ℚ} (h1 : a1 < p) (h2 : p < b1)
    (h3 : a2 ≤ p) (h4 : p ≤ b2) (h5 : a2 < b2) :
    ∃ q : ℚ, a1 < q ∧ q < b1 ∧ a2 < q ∧ q < b2 := by
  have hlt : max a1 a2 < min b1 b2 := by
    rcases eq_or_lt_of_le h3 with he | hlt2
    · have hmax : max a1 a2 ≤ p := max_le (le_of_lt h1) h3
      have h5p : p < b2 := he ▸ h5
      exact lt_of_le_of_lt hmax (lt_min h2 h5p)
    · exact lt_of_lt_of_le (max_lt h1 hlt2) (le_min (le_of_lt h2) h4)
  have hq1 : max a1 a2 < (max a1 a2 + min b1 b2) / 2 := by linarith
  have hq2 : (max a1 a2 + min b1 b2) / 2 < min b1 b2 := by linarith
  exact ⟨(max a1 a2 + min b1 b2) / 2,
    lt_of_le_of_lt (le_max_left _ _) hq1, lt_of_lt_of_le hq2 (min_le_left _ _),
    lt_of_le_of_lt (le_max_right _ _) hq1, lt_of_lt_of_le hq2 (min_le_right _ _)⟩

lemma strict_closed_overlap {X Y : Well} (hndY : nondegenerate Y) {cx cy : ℚ}
    (hX : strictlyInside X cx cy) (hY : insideClosed Y cx cy)
    (hdisj : ∀ x y : ℚ, strictlyInside X x y → ¬strictlyInside Y x y) : False := by
  obtain ⟨hx1, hx2, hx3, hx4⟩ := hX
  obtain ⟨hy1, hy2, hy3, hy4⟩ := hY
  obtain ⟨hw, hh⟩ := hndY
  obtain ⟨qx, hqx1, hqx2, hqx3, hqx4⟩ :=
    interval_overlap hx1 hx2 hy1 hy2 (by exact_mod_cast hw)
  obtain ⟨qy, hqy1, hqy2, hqy3, hqy4⟩ :=
    interval_overlap hx3 hx4 hy3 hy4 (by exact_mod_cast hh)
  exact hdisj qx qy ⟨hqx1, hqx2, hqy1, hqy2⟩ ⟨hqx3, hqx4, hqy3, hqy4⟩

lemma find?_first {α : Type} (p : α → Bool) :
    ∀ (l : List α) (i : Nat) (hi : i < l.length),
      p (l.get ⟨i, hi⟩) = true →
      (∀ j (hj : j < i), p (l.get ⟨j, Nat.lt_trans hj hi⟩) = false) →
      l.find? p = some (l.get ⟨i, hi⟩)
  | [], i, hi, _, _ => absurd hi (by simp)
  | a :: l, 0, hi, hp, _ => List.find?_cons_of_pos _ hp
  | a :: l, i + 1, hi, hp, hb => by
      have ha : p a = false := hb 0 (Nat.succ_pos i)
      rw [List.find?_cons_of_neg _ (by simp [ha])]
      exact find?_first p l i (by simpa using hi) hp (fun j hj => hb (j + 1) (by omega))

/-- C5 counterexample: the claim as stated fails for degenerate rectangles.
The zero-width well `Y1` has an empty interior, so the two wells have pairwise
non-overlapping interiors and the centroid (5, 5) of bbox (4, 4, 6, 6) is
strictly inside `X1`; yet `_find_well` returns `Y1` (the first well whose
closed rectangle contains the centroid), not `X1`. -/
theorem C5_counterexample :
    pairwiseDisjointInteriors
      [⟨"Y1", (5, 0), (5, 10), []⟩, ⟨"X1", (0, 0), (10, 10), []⟩] ∧
    strictlyInside ⟨"X1", (0, 0), (10, 10), []⟩ 5 5 ∧
    centerX ⟨4, 4, 6, 6⟩ = 5 ∧ centerY ⟨4, 4, 6, 6⟩ = 5 ∧
    _find_well ⟨4, 4, 6, 6⟩
      [⟨"Y1", (5, 0), (5, 10), []⟩, ⟨"X1", (0, 0), (10, 10), []⟩] = some "Y1" ∧
    ("Y1" : String) ≠ "X1" := by
  refine ⟨?_, ?_, ?_, ?_, ?_, by decide⟩
  · intro i j hij x y hx
    fin_cases i
    · obtain ⟨h1, h2, _, _⟩ := hx
      norm_num at h1 h2
      linarith
    · fin_cases j
      · intro hy
        obtain ⟨h1, h2, _, _⟩ := hy
        norm_num at h1 h2
        linarith
      · exact absurd rfl hij
  · refine ⟨by norm_num, by norm_num, by norm_num, by norm_num⟩
  · norm_num [centerX]
  · norm_num [centerY]
  · show (List.find? _ _).map Well.label = _
    rw [List.find?_cons_of_pos _ (by norm_num [wellContains, centerX, centerY])]
    rfl

/-- C5 (amended): for wells with pairwise non-overlapping interiors whose
rectangles are additionally non-degenerate (positive area — without this the
zero-width well of the counterexample defeats the claim), a detection whose
centroid is strictly inside well X is assigned to X and no other well
contains its centroid; a centroid contained in several wells is assigned to
the first such well in iteration (row-major) order; and a centroid in no
rectangle of any well yields no assignment and no error. -/
theorem C5_find_well_amended (wells : List Well) (bbox : BBox)
    (hdisj : pairwiseDisjointInteriors wells)
    (hnd : ∀ w ∈ wells, nondegenerate w) :
    (∀ i : Fin wells.length,
      strictlyInside (wells.get i) (centerX bbox) (centerY bbox) →
      _find_well bbox wells = some (wells.get i).label ∧
      ∀ w ∈ wells, insideClosed w (centerX bbox) (centerY bbox) → w = wells.get i) ∧
    (∀ i : Fin wells.length,
      insideClosed (wells.get i) (centerX bbox) (centerY bbox) →
      (∀ j : Fin wells.length, (j : Nat) < (i : Nat) →
        ¬insideClosed (wells.get j) (centerX bbox) (centerY bbox)) →
      _find_well bbox wells = some (wells.get i).label) ∧
    ((∀ w ∈ wells, ¬insideClosed w (centerX bbox) (centerY bbox)) →
      _find_well bbox wells = none) := by
  have hfirst : ∀ i : Fin wells.length,
      insideClosed (wells.get i) (centerX bbox) (centerY bbox) →
      (∀ j : Fin wells.length, (j : Nat) < (i : Nat) →
        ¬insideClosed (wells.get j) (centerX bbox) (centerY bbox)) →
      _find_well bbox wells = some (wells.get i).label := by
    intro i hin hbefore
    unfold _find_well
    rw [find?_first _ wells i.val i.isLt ((wellContains_iff _ _ _).2 hin)
      (fun j hj => Bool.eq_false_iff.2 (fun hc =>
        hbefore ⟨j, Nat.lt_trans hj i.isLt⟩ hj ((wellContains_iff _ _ _).1 hc)))]
    rfl
  refine ⟨?_, hfirst, ?_⟩
  · intro i hstrict
    have huniq : ∀ w ∈ wells, insideClosed w (centerX bbox) (centerY bbox) →
        w = wells.get i := by
      intro w hw hwin
      obtain ⟨j, hj⟩ := List.mem_iff_get.1 hw
      by_cases hji : j = i
      · rw [← hj, hji]
      · exfalso
        apply strict_closed_overlap (hnd w hw) hstrict hwin
        intro x y hX hYw
        exact hdisj i j (fun he => hji he.symm) x y hX (by rw [hj]; exact hYw)
    refine ⟨?_, huniq⟩
    apply hfirst i ⟨le_of_lt hstrict.1, le_of_lt hstrict.2.1,
      le_of_lt hstrict.2.2.1, le_of_lt hstrict.2.2.2⟩
    intro j hji hjin
    have hne : i ≠ j := fun he => by
      rw [he] at hji
      omega
    exact strict_closed_overlap (hnd _ (wells.get_mem j.val j.isLt)) hstrict hjin
      (hdisj i j hne)
  · intro hnone
    unfold _find_well
    rw [List.find?_eq_none.2 (fun w hw hc =>
      hnone w hw ((wellContains_iff _ _ _).1 hc))]
    rfl

/-- C5 witness: a single non-degenerate well containing the centroid. -/
theorem C5_witness :
    pairwiseDisjointInteriors [⟨"X1", (0, 0), (10, 10), []⟩] ∧
    (∀ w ∈ [(⟨"X1", (0, 0), (10, 10), []⟩ : Well)], nondegenerate w) ∧
    ((∀ i : Fin ([(⟨"X1", (0, 0), (10, 10), []⟩ : Well)]).length,
      strictlyInside (([(⟨"X1", (0, 0), (10, 10), []⟩ : Well)]).get i)
        (centerX ⟨4, 4, 6, 6⟩) (centerY ⟨4, 4, 6, 6⟩) →
      _find_well ⟨4, 4, 6, 6⟩ [(⟨"X1", (0, 0), (10, 10), []⟩ : Well)] =
        some (([(⟨"X1", (0, 0), (10, 10), []⟩ : Well)]).get i).label ∧
      ∀ w ∈ [(⟨"X1", (0, 0), (10, 10), []⟩ : Well)],
        insideClosed w (centerX ⟨4, 4, 6, 6⟩) (centerY ⟨4, 4, 6, 6⟩) →
          w = ([(⟨"X1", (0, 0), (10, 10), []⟩ : Well)]).get i) ∧
    (∀ i : Fin ([(⟨"X1", (0, 0), (10, 10), []⟩ : Well)]).length,
      insideClosed (([(⟨"X1", (0, 0), (10, 10), []⟩ : Well)]).get i)
        (centerX ⟨4, 4, 6, 6⟩) (centerY ⟨4, 4, 6, 6⟩) →
      (∀ j : Fin ([(⟨"X1", (0, 0), (10, 10), []⟩ : Well)]).length,
        (j : Nat) < (i : Nat) →
        ¬insideClosed (([(⟨"X1", (0, 0), (10, 10), []⟩ : Well)]).get j)
          (centerX ⟨4, 4, 6, 6⟩) (centerY ⟨4, 4, 6, 6⟩)) →
      _find_well ⟨4, 4, 6, 6⟩ [(⟨"X1", (0, 0), (10, 10), []⟩ : Well)] =
        some (([(⟨"X1", (0, 0), (10, 10), []⟩ : Well)]).get i).label) ∧
    ((∀ w ∈ [(⟨"X1", (0, 0), (10, 10), []⟩ : Well)],
        ¬insideClosed w (centerX ⟨4, 4, 6, 6⟩) (centerY ⟨4, 4, 6, 6⟩)) →
      _find_well ⟨4, 4, 6, 6⟩ [(⟨"X1", (0, 0), (10, 10), []⟩ : Well)] = none)) :=
  ⟨fun i j hij _ _ _ => absurd (Fin.ext (by
      have hi := i.isLt
      have hj := j.isLt
      simp only [List.length_singleton] at hi hj
      omega)) hij,
   fun w hw => by
     simp only [List.mem_singleton] at hw
     subst hw
     exact ⟨by norm_num, by norm_num⟩,
   C5_find_well_amended [⟨"X1", (0, 0), (10, 10), []⟩] ⟨4, 4, 6, 6⟩
     (fun i j hij _ _ _ => absurd (Fin.ext (by
        have hi := i.isLt
        have hj := j.isLt
        simp only [List.length_singleton] at hi hj
        omega)) hij)
     (fun w hw => by
       simp only [List.mem_singleton] at hw
       subst hw
       exact ⟨by norm_num, by norm_num⟩)⟩

lemma append_ne_empty_left {a b : String} (ha : a.data ≠ []) : a ++ b ≠ "" := by
  intro h
  have hd : a.data ++ b.data = [] := by
    have := congrArg String.data h
    simpa using this
  exact ha (List.append_eq_nil.1 hd).1

/-- C2: a job that succeeds through detection and aggregation but whose
annotated-image upload is the only failing persistence operation still ends
with a `completed` status update, and the recorded annotated-image location
is the local temp path of the annotated image. -/
theorem C2_upload_only_failure_completed (job : JobData) (eff : Effects)
    (wells : List Well) (counts : List (String × List Nat)) (p : String)
    (h1 : eff.updateProcessing = Except.ok ())
    (h2 : job.image_path = some p) (hp : p ≠ "")
    (h3 : eff.downloadSuccess = true)
    (h4 : eff.imreadOk = true)
    (h5 : eff.gridBuild = Except.ok ())
    (h6 : eff.predictRun = Except.ok wells)
    (h7 : count_by_row wells = Except.ok counts)
    (h8 : (∃ e, eff.upload = Except.error e) ∨
      (∃ r, eff.upload = Except.ok r ∧ r.success = false))
    (hrc : eff.createRowCounts = Except.ok ())
    (hir : eff.createInferenceResults = Except.ok ())
    (hwp : eff.createWellPredictions = Except.ok ())
    (h12 : eff.updateCompleted = Except.ok ()) :
    (process_inference_job job eff).finalUpdate = some
      { status := "completed", errorMsg := none
        annotatedImagePath := some (annotatedLocalPath job eff.annotatedHex) } := by
  unfold process_inference_job
  simp only [h1, h2]
  rw [if_neg hp, if_neg (show ¬(eff.downloadSuccess = false) by simp [h3]),
    if_neg (show ¬(eff.imreadOk = false) by simp [h4])]
  simp only [h5, h6, h7, h12]
  rcases h8 with ⟨e, he⟩ | ⟨r, hr, hs⟩
  · simp only [he]
  · simp only [hr, hs, if_false, Bool.false_eq_true]

/-- C2 witness: one well with one prediction, the upload raising. -/
theorem C2_witness :
    (({ updateProcessing := Except.ok (), downloadSuccess := true, imreadOk := true
        gridBuild := Except.ok (), predictRun := Except.ok [⟨"A3", (0, 0), (1, 1),
          [⟨"Flowing", 1, []⟩]⟩]
        annotatedHex := "abcd1234", upload := Except.error "connection refused"
        createRowCounts := Except.ok (), createInferenceResults := Except.ok ()
        createWellPredictions := Except.ok (), updateCompleted := Except.ok ()
        updateFailed := Except.ok () } : Effects).updateProcessing = Except.ok () ∧
      count_by_row [⟨"A3", (0, 0), (1, 1), [⟨"Flowing", 1, []⟩]⟩] =
        Except.ok [("A", [0, 0, 1])] ∧
      ("raw/img.jpg" : String) ≠ "") ∧
    (process_inference_job ⟨7, "SP1", some "raw/img.jpg", none, none⟩
      { updateProcessing := Except.ok (), downloadSuccess := true, imreadOk := true
        gridBuild := Except.ok (), predictRun := Except.ok [⟨"A3", (0, 0), (1, 1),
          [⟨"Flowing", 1, []⟩]⟩]
        annotatedHex := "abcd1234", upload := Except.error "connection refused"
        createRowCounts := Except.ok (), createInferenceResults := Except.ok ()
        createWellPredictions := Except.ok (), updateCompleted := Except.ok ()
        updateFailed := Except.ok () }).finalUpdate = some
      { status := "completed", errorMsg := none
        annotatedImagePath := some (annotatedLocalPath
          ⟨7, "SP1", some "raw/img.jpg", none, none⟩ "abcd1234") } :=
  ⟨⟨rfl, by decide, by decide⟩,
    C2_upload_only_failure_completed ⟨7, "SP1", some "raw/img.jpg", none, none⟩ _
      [⟨"A3", (0, 0), (1, 1), [⟨"Flowing", 1, []⟩]⟩] [("A", [0, 0, 1])] "raw/img.jpg"
      rfl rfl (by decide) rfl rfl rfl rfl (by decide)
      (Or.inl ⟨"connection refused", rfl⟩) rfl rfl rfl rfl⟩

/-- C3: a job whose image download fails — missing `image_path`, a download
returning failure, or an unreadable downloaded image — is recorded as
`failed` with a non-empty error message; the detection model is never
invoked and no result persistence is attempted. -/
theorem C3_download_failure_fails (job : JobData) (eff : Effects)
    (h1 : eff.updateProcessing = Except.ok ())
    (hfail : job.image_path = none ∨ job.image_path = some "" ∨
      (∃ p, job.image_path = some p ∧ p ≠ "" ∧ eff.downloadSuccess = false) ∨
      (∃ p, job.image_path = some p ∧ p ≠ "" ∧ eff.downloadSuccess = true ∧
        eff.imreadOk = false)) :
    ∃ msg, msg ≠ "" ∧
      process_inference_job job eff = failTrace msg false false false false false := by
  unfold process_inference_job
  simp only [h1]
  rcases hfail with h | h | ⟨p, hp, hpne, hdl⟩ | ⟨p, hp, hpne, hdl, him⟩
  · refine ⟨"No image_path provided in job_data", by decide, ?_⟩
    simp only [h]
  · refine ⟨"No image_path provided in job_data", by decide, ?_⟩
    simp [h]
  · refine ⟨"Failed to download image from PVC: " ++ p, append_ne_empty_left (by decide), ?_⟩
    simp only [hp]
    rw [if_neg hpne, if_pos (by simp [hdl])]
  · refine ⟨"Unable to load downloaded image: " ++ localImagePath job p,
      append_ne_empty_left (by decide), ?_⟩
    simp only [hp]
    rw [if_neg hpne, if_neg (show ¬(eff.downloadSuccess = false) by simp [hdl]),
      if_pos (by simp [him])]

/-- C3 witness: a job with no `image_path`. -/
theorem C3_witness :
    (({ updateProcessing := Except.ok (), downloadSuccess := true, imreadOk := true
        gridBuild := Except.ok (), predictRun := Except.ok []
        annotatedHex := "abcd1234", upload := Except.ok ⟨true, ⟨some "k", none, none⟩⟩
        createRowCounts := Except.ok (), createInferenceResults := Except.ok ()
        createWellPredictions := Except.ok (), updateCompleted := Except.ok ()
        updateFailed := Except.ok () } : Effects).updateProcessing = Except.ok () ∧
      (⟨7, "SP1", none, none, none⟩ : JobData).image_path = none) ∧
    (∃ msg, msg ≠ "" ∧
      process_inference_job ⟨7, "SP1", none, none, none⟩
        { updateProcessing := Except.ok (), downloadSuccess := true, imreadOk := true
          gridBuild := Except.ok (), predictRun := Except.ok []
          annotatedHex := "abcd1234", upload := Except.ok ⟨true, ⟨some "k", none, none⟩⟩
          createRowCounts := Except.ok (), createInferenceResults := Except.ok ()
          createWellPredictions := Except.ok (), updateCompleted := Except.ok ()
          updateFailed := Except.ok () } =
        failTrace msg false false false false false) :=
  ⟨⟨rfl, rfl⟩,
    C3_download_failure_fails ⟨7, "SP1", none, none, none⟩ _ rfl (Or.inl rfl)⟩

lemma pyround_bounds (q : ℚ) : ⌊q⌋ ≤ pyround q ∧ pyround q ≤ ⌊q⌋ + 1 := by
  unfold pyround
  dsimp only
  split_ifs <;> omega

lemma pyround_mono {p q : ℚ} (h : p ≤ q) : pyround p ≤ pyround q := by
  rcases lt_or_eq_of_le (Int.floor_le_floor h) with hf | hf
  · have h1 := (pyround_bounds p).2
    have h2 := (pyround_bounds q).1
    omega
  · have hcast : ((⌊p⌋ : Int) : ℚ) = ((⌊q⌋ : Int) : ℚ) := by rw [hf]
    have hr : p - ((⌊q⌋ : Int) : ℚ) ≤ q - ((⌊q⌋ : Int) : ℚ) := by linarith
    unfold pyround
    dsimp only
    rw [hf]
    split_ifs <;> first | omega | (exfalso; linarith)

lemma pairwise_lt_getD {l : List ℚ} (hl : l.Pairwise (· < ·)) {i j : Nat}
    (hij : i < j) (hj : j < l.length) : l.getD i 0 < l.getD j 0 := by
  rw [List.getD_eq_getElem _ _ (lt_trans hij hj), List.getD_eq_getElem _ _ hj]
  exact List.pairwise_iff_getElem.1 hl i j _ _ hij

lemma pairwise_le_getD {l : List ℚ} (hl : l.Pairwise (· < ·)) {i j : Nat}
    (hij : i ≤ j) (hj : j < l.length) : l.getD i 0 ≤ l.getD j 0 := by
  rcases Nat.eq_or_lt_of_le hij with he | hlt
  · rw [he]
  · exact le_of_lt (pairwise_lt_getD hl hlt hj)

lemma cover_1d (f : Nat → ℚ) (x : ℚ) : ∀ n, 0 < n → f 0 ≤ x → x ≤ f n →
    ∃ c, c < n ∧ f c ≤ x ∧ x ≤ f (c + 1)
  | 0, h0, _, _ => absurd h0 (lt_irrefl 0)
  | n + 1, _, hl, hr => by
      by_cases hn : n = 0
      · subst hn
        exact ⟨0, Nat.zero_lt_one, hl, hr⟩
      · by_cases hx : x ≤ f n
        · obtain ⟨c, hc, h1, h2⟩ := cover_1d f x n (Nat.pos_of_ne_zero hn) hl hx
          exact ⟨c, by omega, h1, h2⟩
        · push_neg at hx
          exact ⟨n, by omega, le_of_lt hx, hr⟩

lemma build_grid_eq (height width : Int) {v h : List ℚ}
    (hv : v.length = 13) (hh : h.length = 9) :
    _build_grid 8 12 height width v h =
      (List.range 8).flatMap (fun r => (List.range 12).map (wellAt 8 v h r)) := by
  unfold _build_grid wellAt
  rw [if_neg (by simp [hv]), if_neg (by simp [hh])]

lemma build_grid_normalize (height width : Int) (v h : List ℚ) :
    _build_grid 8 12 height width v h =
      _build_grid 8 12 height width
        (if v.length = 13 then v else linspace 0 (width : ℚ) 13)
        (if h.length = 9 then h else linspace 0 (height : ℚ) 9) := by
  unfold _build_grid
  by_cases hv : v.length = 13 <;> by_cases hh : h.length = 9 <;>
    simp [hv, hh, linspace]

/-- C9: for 13 and 9 strictly increasing column/row lines, `_build_grid`
returns exactly 8 × 12 wells with pairwise distinct labels; the wells are the
row-major grid of rectangles between consecutive rounded lines, adjacent
wells share exactly their boundary, distinct wells have disjoint interiors,
and the closed rectangles cover the whole spanned area; and when the line
counts mismatch `cols + 1` / `rows + 1`, a uniform linearly spaced grid over
the full image is substituted instead of failing. -/
theorem C9_build_grid_tiling (height width : Int) (v h : List ℚ)
    (hv : v.length = 13) (hh : h.length = 9)
    (hmv : v.Pairwise (· < ·)) (hmh : h.Pairwise (· < ·)) :
    (_build_grid 8 12 height width v h).length = 8 * 12 ∧
    ((_build_grid 8 12 height width v h).map Well.label).Nodup ∧
    _build_grid 8 12 height width v h =
      (List.range 8).flatMap (fun r => (List.range 12).map (wellAt 8 v h r)) ∧
    (∀ r c, (wellAt 8 v h r c).bottom_right.1 = (wellAt 8 v h r (c + 1)).top_left.1 ∧
      (wellAt 8 v h r c).bottom_right.2 = (wellAt 8 v h (r + 1) c).top_left.2) ∧
    (∀ r c r2 c2, r < 8 → c < 12 → r2 < 8 → c2 < 12 → (r, c) ≠ (r2, c2) →
      ∀ x y : ℚ, strictlyInside (wellAt 8 v h r c) x y →
        ¬strictlyInside (wellAt 8 v h r2 c2) x y) ∧
    (∀ x y : ℚ,
      (pyround (v.getD 0 0) : ℚ) ≤ x → x ≤ (pyround (v.getD 12 0) : ℚ) →
      (pyround (h.getD 0 0) : ℚ) ≤ y → y ≤ (pyround (h.getD 8 0) : ℚ) →
      ∃ r c, r < 8 ∧ c < 12 ∧ insideClosed (wellAt 8 v h r c) x y) ∧
    (∀ v2 h2 : List ℚ, v2.length ≠ 13 ∨ h2.length ≠ 9 →
      _build_grid 8 12 height width v2 h2 =
        _build_grid 8 12 height width
          (if v2.length = 13 then v2 else linspace 0 (width : ℚ) 13)
          (if h2.length = 9 then h2 else linspace 0 (height : ℚ) 9)) := by
  refine ⟨?_, ?_, build_grid_eq height width hv hh, fun r c => ⟨rfl, rfl⟩, ?_, ?_,
    fun v2 h2 _ => build_grid_normalize height width v2 h2⟩
  · rw [build_grid_eq height width hv hh, List.length_flatMap]
    simp only [Function.comp_def, List.length_map, List.length_range, List.map_const']
    decide
  · have hlab : (_build_grid 8 12 height width v h).map Well.label =
        (List.range 8).flatMap (fun r => (List.range 12).map
          (fun c => (_create_row_labels 8).getD r "" ++ toString (c + 1))) := by
      rw [build_grid_eq height width hv hh]
      simp only [List.map_flatMap, List.map_map, Function.comp_def, wellAt]
    rw [hlab]
    decide
  · intro r c r2 c2 hr hc hr2 hc2 hne x y hin hin2
    obtain ⟨ha1, ha2, ha3, ha4⟩ := hin
    obtain ⟨hb1, hb2, hb3, hb4⟩ := hin2
    simp only [wellAt] at ha1 ha2 ha3 ha4 hb1 hb2 hb3 hb4
    rcases Nat.lt_trichotomy c c2 with hcc | hcc | hcc
    · have hvle : v.getD (c + 1) 0 ≤ v.getD c2 0 :=
        pairwise_le_getD hmv (by omega) (by omega)
      have : (pyround (v.getD (c + 1) 0) : ℚ) ≤ (pyround (v.getD c2 0) : ℚ) := by
        exact_mod_cast pyround_mono hvle
      linarith
    · have hrr : r ≠ r2 := by
        intro he
        exact hne (by rw [he, hcc])
      rcases Nat.lt_trichotomy r r2 with hrc | hrc | hrc
      · have hhle : h.getD (r + 1) 0 ≤ h.getD r2 0 :=
          pairwise_le_getD hmh (by omega) (by omega)
        have : (pyround (h.getD (r + 1) 0) : ℚ) ≤ (pyround (h.getD r2 0) : ℚ) := by
          exact_mod_cast pyround_mono hhle
        linarith
      · exact hrr hrc
      · have hhle : h.getD (r2 + 1) 0 ≤ h.getD r 0 :=
          pairwise_le_getD hmh (by omega) (by omega)
        have : (pyround (h.getD (r2 + 1) 0) : ℚ) ≤ (pyround (h.getD r 0) : ℚ) := by
          exact_mod_cast pyround_mono hhle
        linarith
    · have hvle : v.getD (c2 + 1) 0 ≤ v.getD c 0 :=
        pairwise_le_getD hmv (by omega) (by omega)
      have : (pyround (v.getD (c2 + 1) 0) : ℚ) ≤ (pyround (v.getD c 0) : ℚ) := by
        exact_mod_cast pyround_mono hvle
      linarith
  · intro x y hx0 hx1 hy0 hy1
    obtain ⟨c, hc, hcl, hcr⟩ :=
      cover_1d (fun c => (pyround (v.getD c 0) : ℚ)) x 12 (by omega) hx0 hx1
    obtain ⟨r, hr, hrl, hrr⟩ :=
      cover_1d (fun r => (pyround (h.getD r 0) : ℚ)) y 8 (by omega) hy0 hy1
    exact ⟨r, c, hr, hc, hcl, hcr, hrl, hrr⟩

/-- C9 witness: the integer lines 0..12 and 0..8 on a 120×80 image. -/
theorem C9_witness :
    (((List.range 13).map (fun i : Nat => (i : ℚ))).length = 13 ∧
      ((List.range 9).map (fun i : Nat => (i : ℚ))).length = 9 ∧
      ((List.range 13).map (fun i : Nat => (i : ℚ))).Pairwise (· < ·) ∧
      ((List.range 9).map (fun i : Nat => (i : ℚ))).Pairwise (· < ·)) ∧
    ((_build_grid 8 12 80 120 ((List.range 13).map (fun i : Nat => (i : ℚ)))
        ((List.range 9).map (fun i : Nat => (i : ℚ)))).length = 8 * 12 ∧
      ((_build_grid 8 12 80 120 ((List.range 13).map (fun i : Nat => (i : ℚ)))
        ((List.range 9).map (fun i : Nat => (i : ℚ)))).map Well.label).Nodup) :=
  ⟨⟨by decide, by decide, by decide, by decide⟩,
    ⟨(C9_build_grid_tiling 80 120 ((List.range 13).map (fun i : Nat => (i : ℚ)))
        ((List.range 9).map (fun i : Nat => (i : ℚ)))
        (by decide) (by decide) (by decide) (by decide)).1,
      (C9_build_grid_tiling 80 120 ((List.range 13).map (fun i : Nat => (i : ℚ)))
        ((List.range 9).map (fun i : Nat => (i : ℚ)))
        (by decide) (by decide) (by decide) (by decide)).2.1⟩⟩

end Microplate
